import Mathlib

/-
  Verification development for the arc2arc primer migration scripts.

  The Python sources are shallowly embedded as pure Lean functions.  Network
  collaborators (the draft API, Photo Center, the settings service, the
  validation endpoint, Migration Center) are modelled as explicit "world"
  records whose fields describe the responses the collaborators would return;
  every script function becomes a function of such a world and of the
  document fragment it reads and writes.  Python dictionaries that are built
  by repeated update calls are modelled as association lists with
  insertion-order-preserving, value-overwriting insertion (dictInsert /
  dictUpdate below), which mirrors CPython dict semantics.
-/

set_option maxHeartbeats 1000000

namespace Arc2Arc

/-- Python truthiness of an optional string: None and the empty string are
falsy, every other string is truthy. -/
def pyTruthyStr : Option String → Bool
  | some s => s != ""
  | none => false

/-- One insertion into a Python dict modelled as an association list: if the
key is present its value is overwritten in place (insertion order kept),
otherwise the pair is appended. -/
def dictInsert {α : Type} (m : List (String × α)) (k : String) (v : α) :
    List (String × α) :=
  if m.any (fun p => p.1 == k) then
    m.map (fun p => if p.1 == k then (k, v) else p)
  else m ++ [(k, v)]

/-- Python dict.update: fold of dictInsert over the new pairs. -/
def dictUpdate {α : Type} (m : List (String × α)) (kvs : List (String × α)) :
    List (String × α) :=
  kvs.foldl (fun acc p => dictInsert acc p.1 p.2) m

/-- Python dict.get(k, None) on the association-list model. -/
def dictGet {α : Type} (m : List (String × α)) (k : String) : Option α :=
  match m.find? (fun p => p.1 == k) with
  | some p => some p.2
  | none => none

/-! ## arc_endpoints.py and dist_ref_id.py URL builders (claim C9) -/

namespace dist_ref_id

/-- dist_ref_id.get_distributor_url: the copy of the distributor URL builder
that lives at the top of dist_ref_id.py.  dist_id defaults to None in the
source; Python truthiness decides between the item URL and the base URL. -/
def get_distributor_url (org : String) (dist_id : Option String) : String :=
  if pyTruthyStr dist_id then
    "https://api." ++ org ++ ".arcpublishing.com/settings/v1/distributor/" ++ dist_id.getD ""
  else
    "https://api." ++ org ++ ".arcpublishing.com/settings/v1/distributor/"

end dist_ref_id

namespace arc_endpoints

/-- arc_endpoints.get_distributor_url: the second copy of the distributor URL
builder, in arc_endpoints.py. -/
def get_distributor_url (org : String) (dist_id : Option String) : String :=
  if pyTruthyStr dist_id then
    "https://api." ++ org ++ ".arcpublishing.com/settings/v1/distributor/" ++ dist_id.getD ""
  else
    "https://api." ++ org ++ ".arcpublishing.com/settings/v1/distributor/"

end arc_endpoints

/-! ## Circulation data model and transforms (claims C2, C3) -/

/-- The referent of a section reference: the pair of fields referent.id and
referent.website that the circulation transforms read and write. -/
structure SectionReferent where
  id : String
  website : String
deriving DecidableEq, Repr

/-- One entry of a story circulation document: website_id,
website_primary_section (its referent), and the website_sections sequence. -/
structure CirculationEntry where
  website_id : String
  website_primary_section : SectionReferent
  website_sections : List SectionReferent
deriving DecidableEq, Repr

/-- The jmespath projection used for the references report:
[*].website_sections[*].\x7bsection: referent.id, website: referent.website\x7d[],
flattening every circulation entry into (section, website) pairs. -/
def circPairs (cs : List CirculationEntry) : List (String × String) :=
  cs.flatMap (fun c => c.website_sections.map (fun s2 => (s2.id, s2.website)))

/-- Arc2ArcStory.transform_circulation, the loop over self.circulation.
Per entry it sets website_id and the primary referent website to the target
website and rewrites every website_sections referent website; when a target
section was passed (non-empty string, Python truthiness) it additionally
rewrites every section referent id and the primary referent id to the target
section and then breaks out after the first circulation entry, leaving later
entries untouched. -/
def story_transform_circulation (target_website target_section : String)
    (circulation : List CirculationEntry) : List CirculationEntry :=
  if target_section != "" then
    match circulation with
    | [] => []
    | c :: rest =>
        { website_id := target_website
          website_primary_section := { id := target_section, website := target_website }
          website_sections :=
            c.website_sections.map (fun _ =>
              { id := target_section, website := target_website }) } :: rest
  else
    circulation.map (fun c =>
      { website_id := target_website
        website_primary_section :=
          { id := c.website_primary_section.id, website := target_website }
        website_sections :=
          c.website_sections.map (fun s2 => { id := s2.id, website := target_website }) })

/-- The references.circulation report of the story script: it is first
assigned the source snapshot keyed by the source org and then updated (dict
update, both keys kept) with the target snapshot keyed by the target org. -/
def story_circulation_references (from_org to_org target_website target_section : String)
    (circulation : List CirculationEntry) : List (String × List (String × String)) :=
  let source_circulation := circPairs circulation
  let refs := dictInsert ([] : List (String × List (String × String))) from_org source_circulation
  let target_circulation :=
    circPairs (story_transform_circulation target_website target_section circulation)
  dictInsert refs to_org target_circulation

/-- self.from_website in the story script: source_circulation[0]["website"].
The result is none exactly when the flattened source circulation is empty, in
which case the Python subscript raises IndexError. -/
def story_source_website (circulation : List CirculationEntry) : Option String :=
  ((circPairs circulation).map Prod.snd).head?

/-- An embedded (non-reference-shaped) section as the video and gallery fetch
APIs return it: bare _id and _website fields. -/
structure EmbeddedSection where
  _id : String
  _website : String
deriving DecidableEq, Repr

/-- The taxonomy fragment of a fetched video: the primary section id and the
embedded sections sequence. -/
structure VideoTaxonomy where
  primary_section_id : String
  sections : List EmbeddedSection
deriving Repr

/-- Arc2ArcVideo.transform_circulation, the taxonomy.sections rewrite: with a
target section the sections list collapses to the single reference-shaped
target section, otherwise every embedded section is converted to a
reference-shaped section at the target website with its original id. -/
def video_transform_sections (target_website target_section : String)
    (tax : VideoTaxonomy) : List SectionReferent :=
  if target_section != "" then
    [{ id := target_section, website := target_website }]
  else
    tax.sections.map (fun s => { id := s._id, website := target_website })

/-- Arc2ArcVideo.transform_circulation, the references.circulation report:
the field is first assigned the source snapshot keyed by the source org and
then REASSIGNED (not updated) to the target snapshot keyed by the target org,
so the source snapshot is discarded.  The gallery script
(05_transform_gallery.py) has the same pair of assignments. -/
def video_circulation_references (from_org to_org target_website target_section : String)
    (tax : VideoTaxonomy) : List (String × List (String × String)) :=
  let source_circulation := tax.sections.map (fun s => (s._id, s._website))
  let _refs1 := dictInsert ([] : List (String × List (String × String))) from_org source_circulation
  let target_circulation :=
    (video_transform_sections target_website target_section tax).map
      (fun r => (r.id, r.website))
  dictInsert ([] : List (String × List (String × String))) to_org target_circulation

/-! ## HTTP effects

Every network call a script would perform is recorded as one Effect value, so
that temporal claims about which calls happen (claim C6) become statements
about the effect list a model function returns. -/

/-- One HTTP call of the story or video pipeline. -/
inductive Effect where
  | fetchRevision      -- GET draft find-revision
  | fetchStory         -- GET draft revision content
  | fetchCirculation   -- GET draft circulation
  | distGetSource      -- GET source distributor by id (name lookup)
  | distListTarget     -- GET target distributor list
  | distFetchSource    -- GET full source distributor definition
  | restrListTarget    -- GET target restriction list
  | restrCreate        -- POST new restriction in target org
  | distCreate         -- POST new distributor in target org
  | geoGetSource       -- GET source geo restriction
  | geoCreatePost      -- POST new geo restriction in target org
  | geoLookupGet       -- GET target geo restriction by name
  | galleryFetch       -- GET gallery contents from Photo Center
  | validatePost       -- POST to the ANS validation endpoint
  | ingestPost         -- POST to Migration Center
  | redirectFetch      -- GET source story redirects
  | redirectCreate     -- POST one redirect in the target org
deriving DecidableEq, Repr

/-- The effects the dry-run claim says must not happen: creation posts for
shared entities (distributors, restrictions, geo restrictions), the ingestion
post and the redirect posts. -/
def isCreationEffect : Effect → Bool
  | Effect.restrCreate => true
  | Effect.distCreate => true
  | Effect.geoCreatePost => true
  | Effect.ingestPost => true
  | Effect.redirectCreate => true
  | _ => false

/-! ## Validation (claim C7) -/

/-- The four schema error messages that Arc2ArcStory.validate_transform
compares against the parsed validation response body. -/
def sentinel_messages : List String :=
  ["should NOT have additional properties", "should be equal to one of values",
   "should be string", "should match exactly one schema in oneOf"]

/-- The default message of MakingNewDistributorFirstTimeException from
arc2arc_exceptions.py. -/
def making_new_distributor_msg : String :=
  "A primer script has just attempted to make a new distributor. If this was the first time, the error here is expected and will be cleared if you run this exact same script one more time."

/-- The generic failure diagnostic of validate_transform, the interpolation
of the repr of the response object and the response text. -/
def generic_validation_message (status : Nat) (text : String) : String :=
  "<Response [" ++ toString status ++ "]> " ++ text

/-- Arc2ArcStory.validate_transform as a function of the validation
response: its status code, the parsed list of body messages (none when the
body is not a JSON list of message objects) and the raw text.  Returns the
pair (self.validation, self.message).  A 2xx/3xx response (ok, status below
400) sets validation true and leaves the message empty; otherwise validation
is false and the message is the generic diagnostic, except that a 400 whose
messages are exactly the four sentinel strings raises
MakingNewDistributorFirstTimeException, which the handler turns into that
exception message followed by the full error text. -/
def validate_transform (status : Nat) (messages : Option (List String))
    (text : String) : Bool × String :=
  let validation := status < 400
  let message := if validation then "" else generic_validation_message status text
  if status == 400 && messages == some sentinel_messages then
    (false, making_new_distributor_msg ++ " full error: " ++ text)
  else
    (validation, message)

/-! ## Distributor resolution (claims C5, C6) -/

/-- The distributor fragment of a story document: the single field
distributor.reference_id that dist_ref_id.py reads and writes. -/
structure StoryDistributor where
  reference_id : Option String
deriving DecidableEq, Repr

/-- The document fragment that the distributor resolver operates on. -/
structure DistAns where
  distributor : Option StoryDistributor
deriving DecidableEq, Repr

/-- dist_ref_id.find_reference_id: jmespath distributor.reference_id with an
empty-string default; absent distributor structures yield the falsy empty
string. -/
def find_reference_id (a : DistAns) : String :=
  match a.distributor with
  | some d => d.reference_id.getD ""
  | none => ""

/-- The responses of the settings service as the distributor resolver sees
them.  sourceDistName is the name field of the source distributor fetched by
id (requests and .json().get with an "undefined" default never raise here);
targetIdForName is the id of the target-org distributor with that name, if
any; sourceFetchOk is whether the full source definition fetch succeeds;
sourceRestrictionCount is how many nested restrictions that definition
carries; createOk / createdId / conflictId describe the outcome of the
create post: on an ok response the nested data.id (createdId), otherwise the
conflicting id extracted from context.distributor.id (conflictId). -/
structure DistWorld where
  sourceDistName : String → String
  targetIdForName : String → Option String
  sourceFetchOk : Bool
  sourceRestrictionCount : Nat
  createOk : Bool
  createdId : Option String
  conflictId : Option String

/-- dist_ref_id.rewrite_reference_id: look the source distributor name up,
search the target org distributor list for that name, and return the target
id found (possibly none) together with the one-entry mapping from the source
id to it and the two GET calls performed. -/
def rewrite_reference_id (w : DistWorld) (source_dist_id : String) :
    Option String × List (String × Option String) × List Effect :=
  let source_distributor := w.sourceDistName source_dist_id
  let target_dist_id := w.targetIdForName source_distributor
  (target_dist_id, [(source_dist_id, target_dist_id)],
   [Effect.distGetSource, Effect.distListTarget])

/-- dist_ref_id.create_target_distributor_restrictions.  If the document
carries no distributor reference the function is a no-op with an empty
mapping.  Otherwise it looks the distributor up by name in the target org;
when found (truthy) nothing is created and the document is returned
unchanged with the mapping recording the found id.  When not found it
fetches the full source definition, recreates each nested restriction
(one create post per restriction, with a by-name fallback that does not
issue further posts in this model beyond the lookup GET), posts the cleaned
definition, and takes the new id from data.id on success or from
context.distributor.id on failure; only when that id is truthy are the
document reference field and the mapping updated.  No failure raises past
the function. -/
def create_target_distributor_restrictions (w : DistWorld) (a : DistAns) :
    DistAns × List (String × Option String) × List Effect :=
  let dist_id := find_reference_id a
  if dist_id == "" then (a, [], [])
  else
    let found := rewrite_reference_id w dist_id
    let target_dist_id := found.1
    let dist_source_target_ids := found.2.1
    let eff1 := found.2.2
    if pyTruthyStr target_dist_id then (a, dist_source_target_ids, eff1)
    else
      let eff2 := eff1 ++ [Effect.distFetchSource]
      if w.sourceFetchOk then
        let eff3 := eff2 ++
          (if w.sourceRestrictionCount == 0 then []
           else Effect.restrListTarget :: List.replicate w.sourceRestrictionCount Effect.restrCreate) ++
          [Effect.distCreate]
        let target2 := if w.createOk then w.createdId else w.conflictId
        if pyTruthyStr target2 then
          ({ distributor := some { reference_id := target2 } },
           dictInsert dist_source_target_ids dist_id target2, eff3)
        else (a, dist_source_target_ids, eff3)
      else (a, dist_source_target_ids, eff2)

/-- Arc2ArcStory.transform_distributor.  Outside a dry run it calls the
resolver, stores the returned mapping as references.distributor, adds the
source-org to target-org header pair when the mapping is non-empty, and then,
if the document now carries a truthy reference id, overwrites that field with
the value found for it in the references dictionary (dict.get with a None
default).  In a dry run the resolver is not called; a present reference id is
replaced by the dry-run sentinel message and the references show the header
pair and the original id mapped to the sentinel. -/
def transform_distributor (w : DistWorld) (from_org to_org : String)
    (dry_run : Bool) (a : DistAns) (dry_run_restriction_msg : String) :
    DistAns × Option (List (String × Option String)) × List Effect :=
  if dry_run then
    let orig := match a.distributor with
      | some d => d.reference_id
      | none => none
    if pyTruthyStr orig then
      let orig_dist_id := orig.getD ""
      ({ distributor := some { reference_id := some dry_run_restriction_msg } },
       some (dictInsert (dictInsert [] from_org (some to_org)) orig_dist_id
              (some dry_run_restriction_msg)),
       [])
    else (a, none, [])
  else
    let res := create_target_distributor_restrictions w a
    let a2 := res.1
    let references_distributor := res.2.1
    let eff := res.2.2
    let refs : Option (List (String × Option String)) :=
      if references_distributor != [] then
        some (dictInsert references_distributor from_org (some to_org))
      else some references_distributor
    let orig := match a2.distributor with
      | some d => d.reference_id
      | none => none
    if pyTruthyStr orig then
      let orig_dist_id := orig.getD ""
      ({ distributor := some { reference_id := (dictGet (refs.getD []) orig_dist_id).join } },
       refs, eff)
    else (a2, refs, eff)

/-! ## Geographic restrictions (claims C6, C10) -/

/-- One element of the content_restrictions.geo.restrictions list.  The
source list holds objects with a restriction_id field (possibly null); the
dry-run branch of the resolver replaces the whole list with one bare string,
hence the second constructor. -/
inductive GeoItem where
  | ref (restriction_id : Option String)
  | msg (s : String)
deriving DecidableEq, Repr

/-- The jmespath projection restrictions[*].restriction_id: elements without
the field contribute nothing. -/
def geoItemId : GeoItem → Option String
  | GeoItem.ref i => i
  | GeoItem.msg _ => none

/-- The geo fragment of a video document: content_restrictions.geo with its
restrictions list, or none when the geo structure is absent or falsy. -/
structure GeoAns where
  geo : Option (List GeoItem)
deriving DecidableEq, Repr

/-- The settings-service responses seen by the geo restriction resolver:
createdId g is the id field of the create-post response body for source
restriction g (none when the post fails or the body has no id, which in the
source raises into the except branch), and lookupId g is the id of the
first target restriction found by name (none when the lookup response is not
ok or has no data). -/
structure GeoWorld where
  createdId : String → Option String
  lookupId : String → Option String

/-- The try/except ladder of the geo loop: attempt the creation, and on
failure fall back to the by-name lookup. -/
def resolveGeo (w : GeoWorld) (g : String) : Option String :=
  match w.createdId g with
  | some i => some i
  | none => w.lookupId g

/-- dist_ref_id.create_target_geographic_restrictions.  With the geo
structure absent the function is a no-op.  Outside a dry run it iterates the
source restriction ids in order; per id it fetches the source definition,
attempts the creation, falls back to the by-name lookup, and in the finally
block always appends one restriction_id entry (null when unresolved) and
records the id pair; the restrictions list is replaced by the new list.  In
a dry run with at least one id no network call is made, the list is replaced
by the bare sentinel string and the report maps the first source id to the
sentinel. -/
def create_target_geographic_restrictions (w : GeoWorld) (ans : GeoAns)
    (dry_run_msg : String) (dry_run : Bool) :
    GeoAns × List (String × Option String) × List Effect :=
  match ans.geo with
  | none => (ans, [], [])
  | some entries =>
      let restriction_ids := entries.filterMap geoItemId
      if dry_run then
        match restriction_ids with
        | [] => (ans, [], [])
        | g :: _ =>
            ({ geo := some [GeoItem.msg dry_run_msg] }, [(g, some dry_run_msg)], [])
      else
        let new_geo_restrictions :=
          restriction_ids.map (fun g => GeoItem.ref (resolveGeo w g))
        let new_geo_restriction_ids :=
          dictUpdate [] (restriction_ids.map (fun g => (g, resolveGeo w g)))
        let eff := restriction_ids.flatMap (fun g =>
          [Effect.geoGetSource, Effect.geoCreatePost] ++
            (match w.createdId g with
             | some _ => []
             | none => [Effect.geoLookupGet]))
        ({ geo := some new_geo_restrictions }, new_geo_restriction_ids, eff)

/-! ## Photo Center references: scan and rewrite (claims C1, C4) -/

/-- The nested referent structure of an embedded reference: the id and type
fields the scanner filters on and the rewriter updates.  The website field of
a referent is never read or written by the photo reference transform and is
omitted. -/
structure Referent where
  id : String
  rtype : String
deriving DecidableEq, Repr

/-- One element of content_elements or related_content.basic, or one promo
item: the top-level _id field and the optional referent.  (The Python
rewriter indexes the referent unconditionally for a matched _id; a matched
element without a referent raises there, and the model leaves the absent
referent absent.) -/
structure Element where
  _id : String
  referent : Option Referent
deriving DecidableEq, Repr

/-- The fragment of a story document visited by transform_photo_references:
the content elements, the basic and lead_art promo items and the
related_content.basic sequence. -/
structure Story where
  content_elements : List Element
  promo_basic : Option Element
  promo_lead_art : Option Element
  related_basic : List Element
deriving DecidableEq, Repr

/-- The jmespath filter for image references in content_elements and
related_content: elements with a referent of type image, selecting
referent.id. -/
def imageIdOfCE (e : Element) : Option String :=
  match e.referent with
  | some r => if r.rtype == "image" then some r.id else none
  | none => none

/-- The jmespath filter for gallery references in content_elements and
related_content: elements with a referent of type gallery, selecting the
TOP-LEVEL _id (unlike the image filter, which selects referent.id). -/
def galleryIdOfCE (e : Element) : Option String :=
  match e.referent with
  | some r => if r.rtype == "gallery" then some e._id else none
  | none => none

/-- The promo-item projection (promo_items.basic.*)[?type==image].id: among
the values of the promo item object only the referent is an object carrying a
type field, so the filter yields its id when its type matches. -/
def promoId (rtype : String) (p : Option Element) : List String :=
  match p with
  | some e =>
      match e.referent with
      | some r => if r.rtype == rtype then [r.id] else []
      | none => []
  | none => []

/-- ce_imgs of transform_photo_references. -/
def ce_imgs (s : Story) : List String := s.content_elements.filterMap imageIdOfCE

/-- pi_imgs of transform_photo_references (promo_items.basic, type image). -/
def pi_imgs (s : Story) : List String := promoId "image" s.promo_basic

/-- rc_img of transform_photo_references. -/
def rc_img (s : Story) : List String := s.related_basic.filterMap imageIdOfCE

/-- The concatenation of the three image scans, before deduplication. -/
def scanImagesRaw (s : Story) : List String := ce_imgs s ++ pi_imgs s ++ rc_img s

/-- references_images: list(set(ce_imgs + pi_imgs + rc_img)). -/
def references_images (s : Story) : List String := (scanImagesRaw s).dedup

/-- ce_gals of transform_photo_references. -/
def ce_gals (s : Story) : List String := s.content_elements.filterMap galleryIdOfCE

/-- pi_gals of transform_photo_references (promo_items.lead_art, type
gallery). -/
def pi_gals (s : Story) : List String := promoId "gallery" s.promo_lead_art

/-- rc_gals of transform_photo_references. -/
def rc_gals (s : Story) : List String := s.related_basic.filterMap galleryIdOfCE

/-- references_galleries: list(set(ce_gals + pi_gals + rc_gals)). -/
def references_galleries (s : Story) : List String :=
  (ce_gals s ++ pi_gals s ++ rc_gals s).dedup

/-- Modelled from the spec: the module arc_id imported by every script is
not among the sources.  Per the spec (Deterministic ID Generator) it derives
the destination identifier deterministically and injectively from the source
identifier and the destination organization name, with no external state. -/
def generate_arc_id (old_id to_org : String) : String :=
  old_id ++ "-" ++ to_org

/-- One rewrite step on one element: when the top-level _id equals the old
id, both the _id and the nested referent id are set to the new id, the
referent type untouched; otherwise the element is untouched. -/
def rewriteElem (old_id new_id : String) (e : Element) : Element :=
  if e._id == old_id then
    { _id := new_id, referent := e.referent.map (fun r => { r with id := new_id }) }
  else e

/-- One iteration of the rewrite loop of transform_photo_references, for one
old-to-new pair: content_elements, related_content.basic and both promo
items are visited. -/
def rewriteOne (s : Story) (p : String × String) : Story :=
  { content_elements := s.content_elements.map (rewriteElem p.1 p.2)
    promo_basic := s.promo_basic.map (rewriteElem p.1 p.2)
    promo_lead_art := s.promo_lead_art.map (rewriteElem p.1 p.2)
    related_basic := s.related_basic.map (rewriteElem p.1 p.2) }

/-- The full rewrite loop: one pass per mapping entry, in dictionary
iteration order. -/
def rewriteAll (s : Story) (m : List (String × String)) : Story :=
  m.foldl rewriteOne s

/-- The image ids found inside the fetched galleries: the gallery-content
collaborator (Photo Center) returns, per gallery id, the _id of each of its
content elements. -/
def references_gallery_images (galleryContents : String → List String)
    (s : Story) : List String :=
  (references_galleries s).flatMap galleryContents

/-- The combined_newids dictionary of a transform_photo_references run that
completes, built in source order: the image pairs (new ids generated per
scanned image); the source-to-target org header pair added into the images
dictionary when any image was found; the pairs for the images inside fetched
galleries, also added into the images dictionary; and the galleries
dictionary (gallery pairs plus the header) updated over it.  Note that the
header pairs are real dictionary entries of the mapping the rewrite loop
then iterates, because the references display dictionaries alias the new-id
dictionaries. -/
def photoMappingPairs (galleryContents : String → List String)
    (from_org to_org : String) (s : Story) : List (String × String) :=
  let imgs := references_images s
  let gals := references_galleries s
  let d1 := dictUpdate ([] : List (String × String))
    (imgs.map (fun k => (k, generate_arc_id k to_org)))
  let d2 := if imgs != [] then dictInsert d1 from_org to_org else d1
  let d3 := if gals != [] then
      dictUpdate d2 ((gals.flatMap galleryContents).map
        (fun k => (k, generate_arc_id k to_org)))
    else d2
  let g1 := dictUpdate ([] : List (String × String))
    (gals.map (fun k => (k, generate_arc_id k to_org)))
  let g2 := if gals != [] then dictInsert g1 from_org to_org else g1
  dictUpdate d3 g2

/-- The combined_newids dictionary of Arc2ArcStory.transform_photo_references,
or none when the run cannot build it: when the document scan found no direct
image references, self.references.images is never assigned and is still
None, so the first image id inside a fetched gallery makes the references
bookkeeping call update on None and the method dies with AttributeError
before the rewrite loop runs. -/
def photoMapping (galleryContents : String → List String)
    (from_org to_org : String) (s : Story) : Option (List (String × String)) :=
  if references_images s = [] ∧ (references_galleries s).flatMap galleryContents ≠ []
  then none
  else some (photoMappingPairs galleryContents from_org to_org s)

/-- Arc2ArcStory.transform_photo_references, the document rewrite: the
combined mapping applied pairwise to every embedding location; none when the
scan phase raises AttributeError (gallery images found but no direct image
references), in which case no rewritten document exists. -/
def transform_photo_references (galleryContents : String → List String)
    (from_org to_org : String) (s : Story) : Option Story :=
  (photoMapping galleryContents from_org to_org s).map (rewriteAll s)

/-- All old ids the combined mapping regenerates: images scanned from the
document, images inside fetched galleries, and galleries. -/
def allPhotoKeys (galleryContents : String → List String) (s : Story) :
    List String :=
  references_images s ++ references_gallery_images galleryContents s ++
    references_galleries s

/-- Well-formedness of one embedded reference occurrence: the inline _id and
the nested referent id agree.  The scanner reads referent.id for images but
the rewriter matches on _id, so the round trip relies on this agreement. -/
def wfElem (e : Element) : Bool :=
  match e.referent with
  | some r => e._id == r.id
  | none => true

/-- Well-formedness of every embedding location of a story. -/
def wfStory (s : Story) : Bool :=
  s.content_elements.all wfElem && s.related_basic.all wfElem &&
    (match s.promo_basic with
     | some e => wfElem e
     | none => true) &&
    (match s.promo_lead_art with
     | some e => wfElem e
     | none => true)

/-- The substitution a list of rewrite passes applies to one identifier:
each pass maps the current value to the pair value when it equals the pair
key. -/
def chainMap (m : List (String × String)) (x : String) : String :=
  m.foldl (fun y p => if y == p.1 then p.2 else y) x

/-! ## The story pipeline (claims C6, C8) -/

/-- The document fragments of a fetched story that the modelled pipeline
steps read: the photo-reference fragment and the distributor fragment.
transform_ans only adjusts metadata fields (_id, version, owner,
additional_properties, canonical_website) outside these fragments and is not
modelled. -/
structure FullAns where
  story : Story
  dist : DistAns

/-- The collaborator responses one story run observes. -/
structure StoryWorld where
  rev_ok : Bool                          -- find-revision fetch ok
  story_ok : Bool                        -- revision content fetch ok
  circ_ok : Bool                         -- circulation fetch ok
  fetched_ans : Option FullAns           -- jmespath ans of the content body
  fetched_circ : List CirculationEntry   -- jmespath circulations
  distW : DistWorld
  galleryContents : String → List String
  validationStatus : Nat
  validationMessages : Option (List String)
  validationText : String
  post_ok : Bool
  redirects : List String                -- source redirects returned by the redirect GET

/-- The references report of a story run (the fields the claims mention). -/
structure StoryReferences where
  distributor : Option (List (String × Option String))
  redirects : Option (List String)
  circulation : Option (List (String × List (String × String)))
deriving Repr

/-- The outcome of Arc2ArcStory.doit: aborted after the fetch guard, stopped
by a failed validation (both return a message and no document), or finished
with the references report, the transformed document fragments and the
transformed circulation. -/
inductive DoitResult where
  | aborted (message : String)
  | invalid (message : String)
  | finished (references : StoryReferences) (story : Story) (dist : DistAns)
      (circulation : List CirculationEntry)

/-- Whether a run stopped at the fetch guard. -/
def isAborted : DoitResult → Bool
  | DoitResult.aborted _ => true
  | _ => false

/-- Arc2ArcStory.doit, with the list of HTTP calls performed.  The fetch
tries the revision lookup, then the revision content, then the circulation,
capturing a diagnostic for the first failure; the guard aborts only when
both the document and the circulation came back empty (an empty document
with a non-empty circulation cannot complete either: transform_ans indexes
the absent document and the run dies without output, modelled as aborted).
Then the transforms run (the distributor resolver is skipped in a dry run;
gallery fetches are GETs and happen in every mode), validation always
posts, and only a non-dry run with passing validation posts to Migration
Center and then re-creates the redirects (one post per source redirect)
when the ingestion post succeeded. -/
def story_doit (w : StoryWorld) (from_org to_org target_website target_section
    dry_run_restriction_msg : String) (dry_run : Bool) :
    DoitResult × List Effect :=
  let redirects0 : Option (List String) :=
    if dry_run then some ["Story Redirects will not be evaluated during a dry run"]
    else none
  let fetchEff := [Effect.fetchRevision] ++
    (if w.rev_ok then
       [Effect.fetchStory] ++ (if w.story_ok then [Effect.fetchCirculation] else [])
     else [])
  let ans : Option FullAns :=
    if w.rev_ok && w.story_ok then w.fetched_ans else none
  let circ : List CirculationEntry :=
    if w.rev_ok && w.story_ok && w.circ_ok then w.fetched_circ else []
  let fetch_message : String :=
    if w.rev_ok then
      if w.story_ok then
        if w.circ_ok then "" else "circulation fetch failed"
      else "story fetch failed"
    else "revision fetch failed"
  match ans with
  | none => (DoitResult.aborted fetch_message, fetchEff)
  | some fa =>
      let distRes := transform_distributor w.distW from_org to_org dry_run fa.dist
        dry_run_restriction_msg
      let distAns2 := distRes.1
      let refsDist := distRes.2.1
      let distEff := distRes.2.2
      -- The completed-dictionary rewrite: a run on which the photo transform
      -- raises (gallery images without direct image references, see
      -- photoMapping) or the circulation transform raises (empty circulation)
      -- dies without output; this pipeline model serves the fetch-guard and
      -- dry-run-effect claims and keeps those transforms total here.
      let story2 := rewriteAll fa.story
        (photoMappingPairs w.galleryContents from_org to_org fa.story)
      let photoEff := (references_galleries fa.story).map (fun _ => Effect.galleryFetch)
      let circ2 := story_transform_circulation target_website target_section circ
      let refsCirc := story_circulation_references from_org to_org target_website
        target_section circ
      let valid := validate_transform w.validationStatus w.validationMessages
        w.validationText
      let effV := fetchEff ++ distEff ++ photoEff ++ [Effect.validatePost]
      if valid.1 = false then (DoitResult.invalid valid.2, effV)
      else if dry_run then
        (DoitResult.finished
          { distributor := refsDist, redirects := redirects0,
            circulation := some refsCirc } story2 distAns2 circ2, effV)
      else
        let effP := effV ++ [Effect.ingestPost]
        if w.post_ok then
          (DoitResult.finished
            { distributor := refsDist, redirects := some w.redirects,
              circulation := some refsCirc } story2 distAns2 circ2,
           effP ++ [Effect.redirectFetch] ++
             w.redirects.map (fun _ => Effect.redirectCreate))
        else
          (DoitResult.finished
            { distributor := refsDist, redirects := redirects0,
              circulation := some refsCirc } story2 distAns2 circ2, effP)

/-- The per-occurrence contract of the reference rewriter, for one
old-to-new pair: a matched occurrence has its identifier set to the new id
and, when a referent is present, the referent id set to the new id with the
referent type unchanged; an unmatched occurrence is untouched. -/
def rewriteSpec (old_id new_id : String) (e e2 : Element) : Prop :=
  (e._id = old_id → e2._id = new_id ∧
     ∀ r, e.referent = some r → e2.referent = some { id := new_id, rtype := r.rtype }) ∧
  (e._id ≠ old_id → e2 = e)

/-- The story used by the C1 witness: one content element whose inline id
and referent id agree. -/
def roundtripStory : Story :=
  { content_elements := [{ _id := "a", referent := some { id := "a", rtype := "image" } }]
    promo_basic := none
    promo_lead_art := none
    related_basic := [] }

/-- The single-identifier substitution one pass of the rewrite loop applies:
the pair value when the identifier equals the pair key, the identifier
itself otherwise. -/
def subst1 (k v : String) (x : String) : String := if x == k then v else x

/-- The fetched document of the C6 witness run: an empty story carrying a
distributor reference D1. -/
def c6FullAns : FullAns :=
  { story := { content_elements := [], promo_basic := none, promo_lead_art := none,
               related_basic := [] }
    dist := { distributor := some { reference_id := some "D1" } } }

/-- The world of the C6 witness run: all fetches succeed, validation passes,
and the settings service is never consulted (dry run). -/
def c6World : StoryWorld :=
  { rev_ok := true, story_ok := true, circ_ok := true
    fetched_ans := some c6FullAns
    fetched_circ := []
    distW := { sourceDistName := fun _ => "", targetIdForName := fun _ => none,
               sourceFetchOk := false, sourceRestrictionCount := 0,
               createOk := false, createdId := none, conflictId := none }
    galleryContents := fun _ => []
    validationStatus := 200, validationMessages := none, validationText := ""
    post_ok := true, redirects := [] }

/-- The geo world of the C6 witness run. -/
def c6GeoWorld : GeoWorld :=
  { createdId := fun _ => none, lookupId := fun _ => none }

/-- The geo document fragment of the C6 witness run: one restriction G1. -/
def c6GeoAns : GeoAns := { geo := some [GeoItem.ref (some "G1")] }

/-! ## Helper lemmas -/

lemma data_head_append (a b : String) (c : Char) (h : a.data.head? = some c) :
    (a ++ b).data.head? = some c := by
  rw [String.data_append]
  cases hA : a.data with
  | nil => rw [hA] at h; simp at h
  | cons x xs =>
      rw [hA] at h
      simp only [List.head?_cons, Option.some.injEq] at h
      simp [h]

lemma ne_of_data_head_ne (a b : String) (c₁ c₂ : Char)
    (h₁ : a.data.head? = some c₁) (h₂ : b.data.head? = some c₂) (hne : c₁ ≠ c₂) :
    a ≠ b := by
  intro he
  rw [he, h₂] at h₁
  exact hne (Option.some.inj h₁).symm

lemma mem_dictInsert {α : Type} (m : List (String × α)) (k : String) (v : α) :
    ∀ q ∈ dictInsert m k v, q ∈ m ∨ q = (k, v) := by
  intro q hq
  unfold dictInsert at hq
  by_cases h : m.any (fun p => p.1 == k)
  · rw [if_pos h] at hq
    obtain ⟨p, hp, hpe⟩ := List.mem_map.mp hq
    by_cases h2 : p.1 == k
    · rw [if_pos h2] at hpe
      exact Or.inr hpe.symm
    · rw [if_neg h2] at hpe
      exact Or.inl (hpe ▸ hp)
  · rw [if_neg h] at hq
    rcases List.mem_append.mp hq with h1 | h2
    · exact Or.inl h1
    · exact Or.inr (List.mem_singleton.mp h2)

lemma mem_dictUpdate {α : Type} (l : List (String × α)) (m : List (String × α)) :
    ∀ q ∈ dictUpdate m l, q ∈ m ∨ q ∈ l := by
  induction l generalizing m with
  | nil => intro q hq; exact Or.inl hq
  | cons p t ih =>
      intro q hq
      have hstep : dictUpdate m (p :: t) = dictUpdate (dictInsert m p.1 p.2) t := rfl
      rw [hstep] at hq
      rcases ih (dictInsert m p.1 p.2) q hq with h1 | h2
      · rcases mem_dictInsert m p.1 p.2 q h1 with ha | hb
        · exact Or.inl ha
        · exact Or.inr (by rw [hb]; exact List.mem_cons_self _ _)
      · exact Or.inr (List.mem_cons_of_mem _ h2)

lemma dictInsert_forall {α : Type} {P : String × α → Prop} (m : List (String × α))
    (k : String) (v : α) (hm : ∀ q ∈ m, P q) (hkv : P (k, v)) :
    ∀ q ∈ dictInsert m k v, P q := by
  intro q hq
  rcases mem_dictInsert m k v q hq with h | h
  · exact hm q h
  · exact h ▸ hkv

lemma dictUpdate_forall {α : Type} {P : String × α → Prop} (m l : List (String × α))
    (hm : ∀ q ∈ m, P q) (hl : ∀ q ∈ l, P q) :
    ∀ q ∈ dictUpdate m l, P q := by
  intro q hq
  rcases mem_dictUpdate l m q hq with h | h
  · exact hm q h
  · exact hl q h

lemma keys_dictInsert {α : Type} (m : List (String × α)) (k : String) (v : α)
    (k' : String) :
    k' ∈ (dictInsert m k v).map Prod.fst ↔ k' ∈ m.map Prod.fst ∨ k' = k := by
  unfold dictInsert
  by_cases h : m.any (fun p => p.1 == k)
  · obtain ⟨p0, hp0, hp0k⟩ := List.any_eq_true.mp h
    have hk0 : p0.1 = k := beq_iff_eq.mp hp0k
    have hkeys : (m.map (fun p => if p.1 == k then (k, v) else p)).map Prod.fst
        = m.map Prod.fst := by
      rw [List.map_map]
      apply List.map_congr_left
      intro p _
      by_cases h2 : p.1 = k
      · simp [beq_iff_eq, h2]
      · simp [beq_iff_eq, h2]
    rw [if_pos h, hkeys]
    constructor
    · exact Or.inl
    · rintro (h' | h')
      · exact h'
      · exact h' ▸ hk0 ▸ List.mem_map_of_mem Prod.fst hp0
  · rw [if_neg h, List.map_append]
    simp

lemma keys_dictUpdate {α : Type} (l : List (String × α)) (m : List (String × α))
    (k' : String) :
    k' ∈ (dictUpdate m l).map Prod.fst ↔
      k' ∈ m.map Prod.fst ∨ k' ∈ l.map Prod.fst := by
  induction l generalizing m with
  | nil => simp [dictUpdate]
  | cons p t ih =>
      have hstep : dictUpdate m (p :: t) = dictUpdate (dictInsert m p.1 p.2) t := rfl
      rw [hstep, ih, keys_dictInsert]
      simp only [List.map_cons, List.mem_cons]
      tauto

/-! ## Theorems -/

/-- C9: the two copies of the distributor URL builder, in dist_ref_id.py and
in arc_endpoints.py, return the same URL for every organization and every
optional distributor id. -/
theorem C9_distributor_url_copies_equal (org : String) (dist_id : Option String) :
    dist_ref_id.get_distributor_url org dist_id
      = arc_endpoints.get_distributor_url org dist_id := rfl

/-- C2: the story circulation transform does NOT collapse to a single
section entry.  With a source circulation of one website carrying the two
sections A and B at siteX and a supplied destination section S at website W,
every website_sections entry is rewritten in place, so the transformed
circulation flattens to the two identical pairs (S, W) instead of exactly
one entry; the docstring of the method says other sections are dropped. -/
theorem C2_story_collapse_duplicates :
    circPairs (story_transform_circulation "W" "S"
      [{ website_id := "siteX"
         website_primary_section := { id := "A", website := "siteX" }
         website_sections := [{ id := "A", website := "siteX" },
                              { id := "B", website := "siteX" }] }])
      = [("S", "W"), ("S", "W")] := by decide

/-- C3: the video (and gallery) circulation transform ends the run with a
references.circulation report containing only the destination-tenant key:
the source snapshot assigned first is overwritten by a reassignment instead
of a dict update.  At a source circulation with one section A at siteX the
final report keys are exactly the destination org. -/
theorem C3_video_report_loses_source_snapshot :
    ((video_circulation_references "srcorg" "dstorg" "W" "S"
        { primary_section_id := "A"
          sections := [{ _id := "A", _website := "siteX" }] }).map Prod.fst
      = ["dstorg"]) ∧
    ({ primary_section_id := "A"
       sections := [{ _id := "A", _website := "siteX" }] } : VideoTaxonomy).sections
      ≠ [] := by
  constructor
  · decide
  · decide

/-- C7: a 400 validation response whose parsed messages are exactly the four
sentinel schema error strings is always classified as first-time distributor
creation (the diagnostic carries the MakingNewDistributorFirstTimeException
message, and differs from the generic diagnostic); every other failing
response (status at least 400) yields the generic validation-failure
diagnostic. -/
theorem C7_validation_classification (status : Nat)
    (messages : Option (List String)) (text : String) :
    (status = 400 → messages = some sentinel_messages →
       validate_transform status messages text
           = (false, making_new_distributor_msg ++ " full error: " ++ text) ∧
       (validate_transform status messages text).2
           ≠ generic_validation_message status text) ∧
    (400 ≤ status → ¬(status = 400 ∧ messages = some sentinel_messages) →
       validate_transform status messages text
           = (false, generic_validation_message status text)) := by
  constructor
  · intro h400 hmsgs
    subst h400
    subst hmsgs
    have hval : validate_transform 400 (some sentinel_messages) text
        = (false, making_new_distributor_msg ++ " full error: " ++ text) := by
      simp [validate_transform]
    refine ⟨hval, ?_⟩
    rw [hval]
    apply ne_of_data_head_ne _ _ 'A' '<'
    · show ((making_new_distributor_msg ++ " full error: ") ++ text).data.head? = some 'A'
      apply data_head_append
      apply data_head_append
      rfl
    · show ((("<Response [" ++ toString 400) ++ "]> ") ++ text).data.head? = some '<'
      apply data_head_append
      apply data_head_append
      rfl
    · decide
  · intro hge hnot
    have hcond : (status == 400 && messages == some sentinel_messages) = false := by
      by_cases h4 : status = 400
      · have hm : messages ≠ some sentinel_messages := fun hm => hnot ⟨h4, hm⟩
        simp [h4, hm]
      · simp [h4]
    have hlt : ¬ status < 400 := by omega
    simp [validate_transform, hcond, hlt]

/-- C7 witness: the sentinel classification at a concrete 400 response. -/
theorem C7_witness :
    validate_transform 400 (some sentinel_messages) "errbody"
        = (false, making_new_distributor_msg ++ " full error: " ++ "errbody") ∧
    (validate_transform 400 (some sentinel_messages) "errbody").2
        ≠ generic_validation_message 400 "errbody" :=
  (C7_validation_classification 400 (some sentinel_messages) "errbody").1 rfl rfl

/-- C5 counterexample: when the distributor is not found by name in the
target org and the creation there succeeds with the new id T1, the
transform_distributor step of the story script ends with a null
distributor.reference_id (the claimed write of the destination id into the
reference field does not survive the caller), even though the mapping
records the source-to-destination pair. -/
theorem C5_counterexample :
    ((transform_distributor
        { sourceDistName := fun _ => "Wires"
          targetIdForName := fun _ => none
          sourceFetchOk := true, sourceRestrictionCount := 0
          createOk := true, createdId := some "T1", conflictId := none }
        "srcorg" "dstorg" false
        { distributor := some { reference_id := some "S1" } } "dry").1.distributor
      = some { reference_id := none }) ∧
    ("S1", some "T1") ∈ ((transform_distributor
        { sourceDistName := fun _ => "Wires"
          targetIdForName := fun _ => none
          sourceFetchOk := true, sourceRestrictionCount := 0
          createOk := true, createdId := some "T1", conflictId := none }
        "srcorg" "dstorg" false
        { distributor := some { reference_id := some "S1" } } "dry").2.1.getD []) := by
  constructor
  · decide
  · decide

/-- C10: in a non-dry-run geo-restriction resolution, the restrictions list
is replaced by exactly one entry per source restriction id, in the original
order, each carrying the created-or-looked-up destination id; an id that
resolves to neither stays in the list as a null entry rather than being
omitted. -/
theorem C10_geo_restrictions_list_shape (w : GeoWorld) (entries : List GeoItem)
    (msg : String) :
    ∃ l, (create_target_geographic_restrictions w { geo := some entries } msg
            false).1.geo = some l ∧
      l.length = (entries.filterMap geoItemId).length ∧
      (∀ i, l.get? i = ((entries.filterMap geoItemId).get? i).map
          (fun g => GeoItem.ref (resolveGeo w g))) ∧
      (∀ g ∈ entries.filterMap geoItemId, resolveGeo w g = none →
         GeoItem.ref none ∈ l) := by
  refine ⟨(entries.filterMap geoItemId).map (fun g => GeoItem.ref (resolveGeo w g)),
    ?_, ?_, ?_, ?_⟩
  · simp [create_target_geographic_restrictions]
  · simp
  · intro i
    simp [List.get?_map]
  · intro g hg hnone
    have hmem := List.mem_map_of_mem (fun g => GeoItem.ref (resolveGeo w g)) hg
    simpa [hnone] using hmem

/-- C10 witness: two source restriction ids, the first unresolvable (kept as
a null entry), the second created as c2. -/
theorem C10_witness :
    ∃ l, (create_target_geographic_restrictions
            { createdId := fun g => if g == "g2" then some "c2" else none
              lookupId := fun _ => none }
            { geo := some [GeoItem.ref (some "g1"), GeoItem.ref (some "g2")] }
            "m" false).1.geo = some l ∧
      l.length = ([GeoItem.ref (some "g1"),
        GeoItem.ref (some "g2")].filterMap geoItemId).length ∧
      (∀ i, l.get? i = (([GeoItem.ref (some "g1"),
          GeoItem.ref (some "g2")].filterMap geoItemId).get? i).map
          (fun g => GeoItem.ref (resolveGeo
            { createdId := fun g => if g == "g2" then some "c2" else none
              lookupId := fun _ => none } g))) ∧
      (∀ g ∈ [GeoItem.ref (some "g1"), GeoItem.ref (some "g2")].filterMap geoItemId,
         resolveGeo { createdId := fun g => if g == "g2" then some "c2" else none
                      lookupId := fun _ => none } g = none →
         GeoItem.ref none ∈ l) :=
  C10_geo_restrictions_list_shape
    { createdId := fun g => if g == "g2" then some "c2" else none
      lookupId := fun _ => none }
    [GeoItem.ref (some "g1"), GeoItem.ref (some "g2")] "m"

lemma rewriteSpec_rewriteElem (old_id new_id : String) (e : Element) :
    rewriteSpec old_id new_id e (rewriteElem old_id new_id e) := by
  constructor
  · intro he
    unfold rewriteElem
    rw [if_pos (beq_iff_eq.mpr he)]
    constructor
    · rfl
    · intro r hr
      simp [hr]
  · intro hne
    unfold rewriteElem
    rw [if_neg (by simp [hne])]

lemma forall₂_rewrite (old_id new_id : String) (l : List Element) :
    List.Forall₂ (rewriteSpec old_id new_id) l (l.map (rewriteElem old_id new_id)) := by
  induction l with
  | nil => exact List.Forall₂.nil
  | cons e t ih => exact List.Forall₂.cons (rewriteSpec_rewriteElem old_id new_id e) ih

/-- C4: the reference rewriter never produces a partial rewrite.  Applying
the empty mapping is the identity; and for any single old-to-new pair, at
every embedding location (content elements, related content, both promo
items) a matched occurrence has its identifier and (when present) its
referent id set to the new id in lockstep with the referent type unchanged,
while an unmatched occurrence is returned untouched. -/
theorem C4_rewriter_lockstep (old_id new_id : String) (s : Story) :
    rewriteAll s [] = s ∧
    List.Forall₂ (rewriteSpec old_id new_id) s.content_elements
      (rewriteOne s (old_id, new_id)).content_elements ∧
    List.Forall₂ (rewriteSpec old_id new_id) s.related_basic
      (rewriteOne s (old_id, new_id)).related_basic ∧
    (∀ e, s.promo_basic = some e →
       ∃ e2, (rewriteOne s (old_id, new_id)).promo_basic = some e2 ∧
         rewriteSpec old_id new_id e e2) ∧
    (∀ e, s.promo_lead_art = some e →
       ∃ e2, (rewriteOne s (old_id, new_id)).promo_lead_art = some e2 ∧
         rewriteSpec old_id new_id e e2) := by
  refine ⟨rfl, forall₂_rewrite old_id new_id s.content_elements,
    forall₂_rewrite old_id new_id s.related_basic, ?_, ?_⟩
  · intro e he
    exact ⟨rewriteElem old_id new_id e, by simp [rewriteOne, he],
      rewriteSpec_rewriteElem old_id new_id e⟩
  · intro e he
    exact ⟨rewriteElem old_id new_id e, by simp [rewriteOne, he],
      rewriteSpec_rewriteElem old_id new_id e⟩

/-- C4 witness: the lockstep contract instantiated at a concrete story with
one matched image reference. -/
theorem C4_witness :
    rewriteAll roundtripStory [] = roundtripStory ∧
    List.Forall₂ (rewriteSpec "a" "n") roundtripStory.content_elements
      (rewriteOne roundtripStory ("a", "n")).content_elements ∧
    List.Forall₂ (rewriteSpec "a" "n") roundtripStory.related_basic
      (rewriteOne roundtripStory ("a", "n")).related_basic ∧
    (∀ e, roundtripStory.promo_basic = some e →
       ∃ e2, (rewriteOne roundtripStory ("a", "n")).promo_basic = some e2 ∧
         rewriteSpec "a" "n" e e2) ∧
    (∀ e, roundtripStory.promo_lead_art = some e →
       ∃ e2, (rewriteOne roundtripStory ("a", "n")).promo_lead_art = some e2 ∧
         rewriteSpec "a" "n" e e2) :=
  C4_rewriter_lockstep "a" "n" roundtripStory

/-- C5 amended: the distributor resolution path is total (no branch escapes
by exception) and ends in one of three states: found by name, the
destination id is written into distributor.reference_id and the pair is
recorded; created fresh, the pair is recorded in the mapping but the caller
then resets reference_id to null (it looks the newly written id up in a
mapping keyed by the source id), leaving the first run to fail validation;
not resolvable at all, reference_id ends null. -/
theorem C5_distributor_resolution_amended (w : DistWorld) (a : DistAns)
    (from_org to_org msg d : String)
    (ha : a.distributor = some { reference_id := some d })
    (hdne : d ≠ "") (hfrom : from_org ≠ d) :
    (∀ t, w.targetIdForName (w.sourceDistName d) = some t → t ≠ "" →
       (transform_distributor w from_org to_org false a msg).1.distributor
           = some { reference_id := some t } ∧
       (d, some t) ∈
         ((transform_distributor w from_org to_org false a msg).2.1.getD [])) ∧
    (w.targetIdForName (w.sourceDistName d) = none → w.sourceFetchOk = true →
     w.createOk = true →
     ∀ c, w.createdId = some c → c ≠ "" → c ≠ d → c ≠ from_org →
       (transform_distributor w from_org to_org false a msg).1.distributor
           = some { reference_id := none } ∧
       (d, some c) ∈
         ((transform_distributor w from_org to_org false a msg).2.1.getD [])) ∧
    (w.targetIdForName (w.sourceDistName d) = none → w.sourceFetchOk = true →
     w.createOk = false → w.conflictId = none →
       (transform_distributor w from_org to_org false a msg).1.distributor
           = some { reference_id := none }) := by
  have hdf : (d == from_org) = false := by
    simp only [beq_eq_false_iff_ne, ne_eq]
    exact fun h => hfrom h.symm
  have hfd : (from_org == d) = false := by
    simp only [beq_eq_false_iff_ne, ne_eq]
    exact hfrom
  refine ⟨?_, ?_, ?_⟩
  · intro t ht htne
    have hres : create_target_distributor_restrictions w a
        = (a, [(d, some t)], [Effect.distGetSource, Effect.distListTarget]) := by
      simp [create_target_distributor_restrictions, rewrite_reference_id,
        find_reference_id, ha, hdne, ht, pyTruthyStr, htne]
    constructor
    · simp [transform_distributor, hres, ha, dictInsert, dictGet, pyTruthyStr,
        hdne, hdf, htne]
    · simp [transform_distributor, hres, ha, dictInsert, dictGet, pyTruthyStr,
        hdne, hdf, htne]
  · intro hnone hfetch hcreate c hc hcne hcd hcf
    have hdc : (d == c) = false := by
      simp only [beq_eq_false_iff_ne, ne_eq]
      exact fun h => hcd h.symm
    have hfc : (from_org == c) = false := by
      simp only [beq_eq_false_iff_ne, ne_eq]
      exact fun h => hcf h.symm
    have h1 : (create_target_distributor_restrictions w a).1
        = { distributor := some { reference_id := some c } } := by
      simp [create_target_distributor_restrictions, rewrite_reference_id,
        find_reference_id, ha, hdne, hnone, hfetch, hcreate, hc, pyTruthyStr, hcne]
    have h2 : (create_target_distributor_restrictions w a).2.1 = [(d, some c)] := by
      simp [create_target_distributor_restrictions, rewrite_reference_id,
        find_reference_id, ha, hdne, hnone, hfetch, hcreate, hc, pyTruthyStr,
        hcne, dictInsert]
    constructor
    · simp [transform_distributor, h1, h2, dictInsert, dictGet, pyTruthyStr,
        hcne, hdf, hdc, hfc]
    · simp [transform_distributor, h1, h2, dictInsert, dictGet, pyTruthyStr,
        hcne, hdf, hdc, hfc]
  · intro hnone hfetch hcreate hconf
    have h1 : (create_target_distributor_restrictions w a).1 = a := by
      simp [create_target_distributor_restrictions, rewrite_reference_id,
        find_reference_id, ha, hdne, hnone, hfetch, hcreate, hconf, pyTruthyStr]
    have h2 : (create_target_distributor_restrictions w a).2.1 = [(d, none)] := by
      simp [create_target_distributor_restrictions, rewrite_reference_id,
        find_reference_id, ha, hdne, hnone, hfetch, hcreate, hconf, pyTruthyStr]
    simp [transform_distributor, h1, h2, ha, dictInsert, dictGet, pyTruthyStr,
      hdne, hdf]

/-- C5 witness: the found-by-name case at concrete inputs — the destination
id T9 is written into the reference field and the pair recorded. -/
theorem C5_witness :
    ((transform_distributor
        { sourceDistName := fun _ => "Wires"
          targetIdForName := fun _ => some "T9"
          sourceFetchOk := true, sourceRestrictionCount := 0
          createOk := false, createdId := none, conflictId := none }
        "srcorg" "dstorg" false
        { distributor := some { reference_id := some "S1" } } "dry").1.distributor
      = some { reference_id := some "T9" }) ∧
    ("S1", some "T9") ∈ ((transform_distributor
        { sourceDistName := fun _ => "Wires"
          targetIdForName := fun _ => some "T9"
          sourceFetchOk := true, sourceRestrictionCount := 0
          createOk := false, createdId := none, conflictId := none }
        "srcorg" "dstorg" false
        { distributor := some { reference_id := some "S1" } } "dry").2.1.getD []) :=
  (C5_distributor_resolution_amended
    { sourceDistName := fun _ => "Wires"
      targetIdForName := fun _ => some "T9"
      sourceFetchOk := true, sourceRestrictionCount := 0
      createOk := false, createdId := none, conflictId := none }
    { distributor := some { reference_id := some "S1" } }
    "srcorg" "dstorg" "dry" "S1" rfl (by decide) (by decide)).1 "T9" rfl (by decide)

/-- C8: a failed circulation fetch after a successful revision and content
fetch does not abort the story pipeline.  At such a world the run proceeds
past the guard (the guard requires the document AND the circulation to be
empty), reaches validation with an empty circulation, and the circulation
transform has no first element to read the source website from (the
subscript that raises IndexError in the source). -/
theorem C8_circulation_fetch_failure_not_aborted :
    (isAborted (story_doit
      { rev_ok := true, story_ok := true, circ_ok := false
        fetched_ans := some
          { story := { content_elements := [], promo_basic := none,
                       promo_lead_art := none, related_basic := [] }
            dist := { distributor := none } }
        fetched_circ := [{ website_id := "siteX"
                           website_primary_section := { id := "A", website := "siteX" }
                           website_sections := [{ id := "A", website := "siteX" }] }]
        distW := { sourceDistName := fun _ => "", targetIdForName := fun _ => none,
                   sourceFetchOk := false, sourceRestrictionCount := 0,
                   createOk := false, createdId := none, conflictId := none }
        galleryContents := fun _ => []
        validationStatus := 200, validationMessages := none, validationText := ""
        post_ok := true, redirects := [] }
      "srcorg" "dstorg" "W" "" "dry" false).1 = false) ∧
    Effect.validatePost ∈ (story_doit
      { rev_ok := true, story_ok := true, circ_ok := false
        fetched_ans := some
          { story := { content_elements := [], promo_basic := none,
                       promo_lead_art := none, related_basic := [] }
            dist := { distributor := none } }
        fetched_circ := [{ website_id := "siteX"
                           website_primary_section := { id := "A", website := "siteX" }
                           website_sections := [{ id := "A", website := "siteX" }] }]
        distW := { sourceDistName := fun _ => "", targetIdForName := fun _ => none,
                   sourceFetchOk := false, sourceRestrictionCount := 0,
                   createOk := false, createdId := none, conflictId := none }
        galleryContents := fun _ => []
        validationStatus := 200, validationMessages := none, validationText := ""
        post_ok := true, redirects := [] }
      "srcorg" "dstorg" "W" "" "dry" false).2 ∧
    story_source_website ([] : List CirculationEntry) = none := by
  refine ⟨?_, ?_, ?_⟩
  · decide
  · decide
  · decide

lemma filter_map_const_galleryFetch (l : List String) :
    (l.map (fun _ => Effect.galleryFetch)).filter isCreationEffect = [] := by
  induction l with
  | nil => rfl
  | cons a t ih => simp [List.filter_cons, isCreationEffect, ih]

/-- C6: in a dry run the story pipeline performs no creation or ingestion
post at all — the effect list of the whole run contains no restriction,
distributor or geo creation, no ingestion post and no redirect post — while
still fetching and validating, and the returned references report carries
the dry-run sentinel in place of the resolved distributor id; likewise the
geo-restriction resolver in a dry run performs zero calls and reports the
sentinel for the first restriction id. -/
theorem C6_dry_run_no_creation_calls (w : StoryWorld) (gw : GeoWorld)
    (gans : GeoAns) (entries : List GeoItem) (g : String) (gs : List String)
    (from_org to_org target_website target_section msg d : String) (fa : FullAns)
    (h1 : w.rev_ok = true) (h2 : w.story_ok = true) (h3 : w.circ_ok = true)
    (h4 : w.fetched_ans = some fa)
    (h5 : fa.dist.distributor = some { reference_id := some d }) (h6 : d ≠ "")
    (h7 : w.validationStatus < 400)
    (hfrom : from_org ≠ d)
    (hg : gans.geo = some entries)
    (hgid : entries.filterMap geoItemId = g :: gs) :
    ((story_doit w from_org to_org target_website target_section msg true).2.filter
        isCreationEffect = [] ∧
     Effect.validatePost ∈
       (story_doit w from_org to_org target_website target_section msg true).2 ∧
     Effect.fetchRevision ∈
       (story_doit w from_org to_org target_website target_section msg true).2 ∧
     ∃ refs st da c2,
       (story_doit w from_org to_org target_website target_section msg true).1
           = DoitResult.finished refs st da c2 ∧
         (d, some msg) ∈ refs.distributor.getD []) ∧
    ((create_target_geographic_restrictions gw gans msg true).2.2 = [] ∧
     (create_target_geographic_restrictions gw gans msg true).1.geo
         = some [GeoItem.msg msg] ∧
     (g, some msg) ∈ (create_target_geographic_restrictions gw gans msg true).2.1) := by
  have hfd : (from_org == d) = false := by
    simp only [beq_eq_false_iff_ne, ne_eq]
    exact hfrom
  have hdict : dictInsert (dictInsert [] from_org (some to_org)) d (some msg)
      = [(from_org, some to_org), (d, some msg)] := by
    simp [dictInsert, hfd]
  have hdist : transform_distributor w.distW from_org to_org true fa.dist msg
      = ({ distributor := some { reference_id := some msg } },
         some [(from_org, some to_org), (d, some msg)], []) := by
    simp [transform_distributor, h5, pyTruthyStr, h6, hdict]
  have h400 : (w.validationStatus == 400) = false := by
    simp only [beq_eq_false_iff_ne, ne_eq]
    omega
  have hval : validate_transform w.validationStatus w.validationMessages
      w.validationText = (true, "") := by
    simp [validate_transform, h400, h7]
  have hrun : story_doit w from_org to_org target_website target_section msg true
      = (DoitResult.finished
          { distributor := some [(from_org, some to_org), (d, some msg)]
            redirects := some ["Story Redirects will not be evaluated during a dry run"]
            circulation := some (story_circulation_references from_org to_org
              target_website target_section w.fetched_circ) }
          (rewriteAll fa.story
            (photoMappingPairs w.galleryContents from_org to_org fa.story))
          { distributor := some { reference_id := some msg } }
          (story_transform_circulation target_website target_section w.fetched_circ),
         [Effect.fetchRevision, Effect.fetchStory, Effect.fetchCirculation] ++
           (references_galleries fa.story).map (fun _ => Effect.galleryFetch) ++
           [Effect.validatePost]) := by
    simp [story_doit, h1, h2, h3, h4, hdist, hval]
  have hgeo : create_target_geographic_restrictions gw gans msg true
      = ({ geo := some [GeoItem.msg msg] }, [(g, some msg)], []) := by
    simp [create_target_geographic_restrictions, hg, hgid]
  refine ⟨⟨?_, ?_, ?_, ?_⟩, ?_⟩
  · rw [hrun]
    simp [List.filter_append, filter_map_const_galleryFetch, isCreationEffect]
  · rw [hrun]
    simp
  · rw [hrun]
    simp
  · rw [hrun]
    exact ⟨_, _, _, _, rfl, by simp⟩
  · rw [hgeo]
    exact ⟨rfl, rfl, by simp⟩

/-- C6 witness: the dry-run guarantees at a concrete world with a
distributor D1 and one geo restriction G1. -/
theorem C6_witness :
    ((story_doit c6World "srcorg" "dstorg" "W" "S" "drymsg" true).2.filter
        isCreationEffect = [] ∧
     Effect.validatePost ∈
       (story_doit c6World "srcorg" "dstorg" "W" "S" "drymsg" true).2 ∧
     Effect.fetchRevision ∈
       (story_doit c6World "srcorg" "dstorg" "W" "S" "drymsg" true).2 ∧
     ∃ refs st da c2,
       (story_doit c6World "srcorg" "dstorg" "W" "S" "drymsg" true).1
           = DoitResult.finished refs st da c2 ∧
         ("D1", some "drymsg") ∈ refs.distributor.getD []) ∧
    ((create_target_geographic_restrictions c6GeoWorld c6GeoAns "drymsg" true).2.2
        = [] ∧
     (create_target_geographic_restrictions c6GeoWorld c6GeoAns "drymsg" true).1.geo
         = some [GeoItem.msg "drymsg"] ∧
     ("G1", some "drymsg") ∈
       (create_target_geographic_restrictions c6GeoWorld c6GeoAns "drymsg" true).2.1) :=
  C6_dry_run_no_creation_calls c6World c6GeoWorld c6GeoAns
    [GeoItem.ref (some "G1")] "G1" [] "srcorg" "dstorg" "W" "S" "drymsg" "D1"
    c6FullAns rfl rfl rfl rfl rfl (by decide) (by decide) (by decide) rfl (by decide)

lemma wfElem_some (e : Element) (r : Referent) (hwf : wfElem e = true)
    (hr : e.referent = some r) : e._id = r.id := by
  unfold wfElem at hwf
  rw [hr] at hwf
  exact beq_iff_eq.mp hwf

lemma imageIdOfCE_rewriteElem (k v : String) (e : Element) (hwf : wfElem e = true) :
    imageIdOfCE (rewriteElem k v e) = (imageIdOfCE e).map (subst1 k v) := by
  cases hre : e.referent with
  | none =>
      by_cases h : e._id = k
      · simp [rewriteElem, imageIdOfCE, hre, h]
      · simp [rewriteElem, imageIdOfCE, hre, h]
  | some r =>
      have hid : e._id = r.id := wfElem_some e r hwf hre
      by_cases h : e._id = k
      · by_cases ht : r.rtype = "image"
        · have hrk : (r.id == k) = true := beq_iff_eq.mpr (hid ▸ h)
          simp [rewriteElem, imageIdOfCE, subst1, hre, h, ht, hrk]
        · simp [rewriteElem, imageIdOfCE, hre, h, ht]
      · by_cases ht : r.rtype = "image"
        · have hrk : (r.id == k) = false := by
            simp only [beq_eq_false_iff_ne, ne_eq]
            exact fun hh => h (hid.trans hh)
          simp [rewriteElem, imageIdOfCE, subst1, hre, h, ht, hrk]
        · simp [rewriteElem, imageIdOfCE, hre, h, ht]

lemma wfElem_rewriteElem (k v : String) (e : Element) (hwf : wfElem e = true) :
    wfElem (rewriteElem k v e) = true := by
  by_cases h : e._id = k
  · cases hre : e.referent with
    | none => simp [rewriteElem, wfElem, hre, h]
    | some r => simp [rewriteElem, wfElem, hre, h]
  · simpa [rewriteElem, h] using hwf

lemma filterMap_imageId_rewrite (k v : String) (l : List Element)
    (h : ∀ e ∈ l, wfElem e = true) :
    (l.map (rewriteElem k v)).filterMap imageIdOfCE
      = (l.filterMap imageIdOfCE).map (subst1 k v) := by
  induction l with
  | nil => rfl
  | cons e t ih =>
      have he := h e (List.mem_cons_self e t)
      have ht : ∀ e2 ∈ t, wfElem e2 = true := fun e2 he2 =>
        h e2 (List.mem_cons_of_mem e he2)
      simp only [List.map_cons, List.filterMap_cons,
        imageIdOfCE_rewriteElem k v e he]
      cases himg : imageIdOfCE e with
      | none => simpa [himg] using ih ht
      | some x => simp [himg, ih ht]

lemma promoId_image_toList (e : Element) :
    promoId "image" (some e) = (imageIdOfCE e).toList := by
  cases hre : e.referent with
  | none => simp [promoId, imageIdOfCE, hre]
  | some r =>
      by_cases h : r.rtype = "image"
      · simp [promoId, imageIdOfCE, hre, h]
      · simp [promoId, imageIdOfCE, hre, h]

lemma toFinset_dedup_list (l : List String) : l.dedup.toFinset = l.toFinset :=
  List.toFinset.ext fun _ => List.mem_dedup

lemma toFinset_map_list (f : String → String) (l : List String) :
    (l.map f).toFinset = l.toFinset.image f := by
  apply Finset.ext
  intro x
  simp

lemma wfStory_parts (s : Story) (h : wfStory s = true) :
    (∀ e ∈ s.content_elements, wfElem e = true) ∧
    (∀ e ∈ s.related_basic, wfElem e = true) ∧
    (∀ e, s.promo_basic = some e → wfElem e = true) ∧
    (∀ e, s.promo_lead_art = some e → wfElem e = true) := by
  unfold wfStory at h
  simp only [Bool.and_eq_true, List.all_eq_true] at h
  obtain ⟨⟨⟨h1, h2⟩, h3⟩, h4⟩ := h
  refine ⟨fun e he => h1 e he, fun e he => h2 e he, ?_, ?_⟩
  · intro e he
    rw [he] at h3
    exact h3
  · intro e he
    rw [he] at h4
    exact h4

lemma scanRaw_rewriteOne (k v : String) (s : Story) (h : wfStory s = true) :
    scanImagesRaw (rewriteOne s (k, v)) = (scanImagesRaw s).map (subst1 k v) := by
  obtain ⟨h1, h2, h3, h4⟩ := wfStory_parts s h
  unfold scanImagesRaw ce_imgs pi_imgs rc_img
  rw [List.map_append, List.map_append]
  congr 1
  · congr 1
    · exact filterMap_imageId_rewrite k v s.content_elements h1
    · show promoId "image" ((rewriteOne s (k, v)).promo_basic)
          = (promoId "image" s.promo_basic).map (subst1 k v)
      cases hpb : s.promo_basic with
      | none => simp [rewriteOne, hpb, promoId]
      | some e =>
          have hwe := h3 e hpb
          have hstep : (rewriteOne s (k, v)).promo_basic
              = some (rewriteElem k v e) := by
            simp [rewriteOne, hpb]
          rw [hstep, promoId_image_toList, promoId_image_toList,
            imageIdOfCE_rewriteElem k v e hwe]
          cases himg : imageIdOfCE e <;> simp
  · exact filterMap_imageId_rewrite k v s.related_basic h2

lemma wfStory_rewriteOne (p : String × String) (s : Story) (h : wfStory s = true) :
    wfStory (rewriteOne s p) = true := by
  obtain ⟨h1, h2, h3, h4⟩ := wfStory_parts s h
  unfold wfStory rewriteOne
  simp only [Bool.and_eq_true, List.all_eq_true]
  refine ⟨⟨⟨?_, ?_⟩, ?_⟩, ?_⟩
  · intro e he
    obtain ⟨e0, he0, rfl⟩ := List.mem_map.mp he
    exact wfElem_rewriteElem p.1 p.2 e0 (h1 e0 he0)
  · intro e he
    obtain ⟨e0, he0, rfl⟩ := List.mem_map.mp he
    exact wfElem_rewriteElem p.1 p.2 e0 (h2 e0 he0)
  · cases hpb : s.promo_basic with
    | none => simp [hpb]
    | some e => simpa [hpb] using wfElem_rewriteElem p.1 p.2 e (h3 e hpb)
  · cases hpl : s.promo_lead_art with
    | none => simp [hpl]
    | some e => simpa [hpl] using wfElem_rewriteElem p.1 p.2 e (h4 e hpl)

lemma scanRaw_rewriteAll (m : List (String × String)) (s : Story)
    (h : wfStory s = true) :
    scanImagesRaw (rewriteAll s m) = (scanImagesRaw s).map (chainMap m) := by
  induction m generalizing s with
  | nil =>
      show scanImagesRaw s = (scanImagesRaw s).map (chainMap [])
      have : chainMap [] = fun x => x := rfl
      rw [this, List.map_id']
  | cons p t ih =>
      have hstep : rewriteAll s (p :: t) = rewriteAll (rewriteOne s p) t := rfl
      rw [hstep, ih (rewriteOne s p) (wfStory_rewriteOne p s h)]
      rw [show (p : String × String) = (p.1, p.2) from rfl] at *
      rw [scanRaw_rewriteOne p.1 p.2 s h, List.map_map]
      rfl

lemma chainMap_fix (m : List (String × String)) (y : String)
    (h : ∀ p ∈ m, p.1 ≠ y) : chainMap m y = y := by
  induction m with
  | nil => rfl
  | cons p t ih =>
      have hy : (y == p.1) = false := by
        simp only [beq_eq_false_iff_ne, ne_eq]
        exact fun hh => h p (List.mem_cons_self p t) hh.symm
      have hstep : chainMap (p :: t) y = chainMap t (if y == p.1 then p.2 else y) := rfl
      rw [hstep, hy]
      exact ih (fun q hq => h q (List.mem_cons_of_mem p hq))

lemma chainMap_hits (m : List (String × String)) (x y : String)
    (hex : x ∈ m.map Prod.fst)
    (hval : ∀ p ∈ m, p.1 = x → p.2 = y)
    (hnk : ∀ p ∈ m, p.1 ≠ y) :
    chainMap m x = y := by
  induction m with
  | nil => simp at hex
  | cons p t ih =>
      have hstep : chainMap (p :: t) x = chainMap t (if x == p.1 then p.2 else x) := rfl
      by_cases hpx : x = p.1
      · have hb : (x == p.1) = true := beq_iff_eq.mpr hpx
        rw [hstep, hb]
        simp only [if_true]
        have hpy : p.2 = y := hval p (List.mem_cons_self p t) hpx.symm
        rw [hpy]
        exact chainMap_fix t y (fun q hq => hnk q (List.mem_cons_of_mem p hq))
      · have hb : (x == p.1) = false := by
          simp only [beq_eq_false_iff_ne, ne_eq]
          exact hpx
        rw [hstep, hb]
        simp only [Bool.false_eq_true, if_false]
        have hex2 : x ∈ t.map Prod.fst := by
          rw [List.map_cons] at hex
          rcases List.mem_cons.mp hex with h1 | h1
          · exact absurd h1 hpx
          · exact h1
        exact ih hex2 (fun q hq => hval q (List.mem_cons_of_mem p hq))
          (fun q hq => hnk q (List.mem_cons_of_mem p hq))

lemma photoMapping_entry (gc : String → List String) (from_org to_org : String)
    (s : Story) :
    ∀ q ∈ photoMappingPairs gc from_org to_org s,
      (q.1 ∈ allPhotoKeys gc s ∧ q.2 = generate_arc_id q.1 to_org) ∨
      (q.1 = from_org ∧ q.2 = to_org) := by
  have himgs : ∀ q ∈ (references_images s).map
      (fun k => (k, generate_arc_id k to_org)),
      (q.1 ∈ allPhotoKeys gc s ∧ q.2 = generate_arc_id q.1 to_org) ∨
      (q.1 = from_org ∧ q.2 = to_org) := by
    intro q hq
    obtain ⟨k, hk, rfl⟩ := List.mem_map.mp hq
    exact Or.inl ⟨List.mem_append_left _ (List.mem_append_left _ hk), rfl⟩
  have hgimgs : ∀ q ∈ ((references_galleries s).flatMap gc).map
      (fun k => (k, generate_arc_id k to_org)),
      (q.1 ∈ allPhotoKeys gc s ∧ q.2 = generate_arc_id q.1 to_org) ∨
      (q.1 = from_org ∧ q.2 = to_org) := by
    intro q hq
    obtain ⟨k, hk, rfl⟩ := List.mem_map.mp hq
    exact Or.inl ⟨List.mem_append_left _ (List.mem_append_right _ hk), rfl⟩
  have hgals : ∀ q ∈ (references_galleries s).map
      (fun k => (k, generate_arc_id k to_org)),
      (q.1 ∈ allPhotoKeys gc s ∧ q.2 = generate_arc_id q.1 to_org) ∨
      (q.1 = from_org ∧ q.2 = to_org) := by
    intro q hq
    obtain ⟨k, hk, rfl⟩ := List.mem_map.mp hq
    exact Or.inl ⟨List.mem_append_right _ hk, rfl⟩
  unfold photoMappingPairs
  refine dictUpdate_forall _ _ ?_ ?_
  · split
    · refine dictUpdate_forall _ _ ?_ hgimgs
      split
      · refine dictInsert_forall _ _ _ ?_ (Or.inr ⟨rfl, rfl⟩)
        exact dictUpdate_forall _ _ (by intro q hq; cases hq) himgs
      · exact dictUpdate_forall _ _ (by intro q hq; cases hq) himgs
    · split
      · refine dictInsert_forall _ _ _ ?_ (Or.inr ⟨rfl, rfl⟩)
        exact dictUpdate_forall _ _ (by intro q hq; cases hq) himgs
      · exact dictUpdate_forall _ _ (by intro q hq; cases hq) himgs
  · split
    · refine dictInsert_forall _ _ _ ?_ (Or.inr ⟨rfl, rfl⟩)
      exact dictUpdate_forall _ _ (by intro q hq; cases hq) hgals
    · exact dictUpdate_forall _ _ (by intro q hq; cases hq) hgals

lemma photoMapping_hasKey (gc : String → List String) (from_org to_org : String)
    (s : Story) (x : String) (hx : x ∈ references_images s) :
    x ∈ (photoMappingPairs gc from_org to_org s).map Prod.fst := by
  have hbase : x ∈ (dictUpdate ([] : List (String × String))
      ((references_images s).map (fun k => (k, generate_arc_id k to_org)))).map
        Prod.fst := by
    rw [keys_dictUpdate]
    refine Or.inr ?_
    rw [List.map_map]
    exact List.mem_map.mpr ⟨x, hx, rfl⟩
  unfold photoMappingPairs
  rw [keys_dictUpdate]
  refine Or.inl ?_
  split
  · rw [keys_dictUpdate]
    refine Or.inl ?_
    split
    · rw [keys_dictInsert]
      exact Or.inl hbase
    · exact hbase
  · split
    · rw [keys_dictInsert]
      exact Or.inl hbase
    · exact hbase

/-- C1 counterexample: for a story whose image reference carries different
inline and referent identifiers (_id b, referent id a), the scanner finds a
(it reads referent.id) but the rewriter matches on _id and rewrites nothing,
so re-scanning the transformed document still finds the old image id a —
the claimed empty set fails. -/
theorem C1_counterexample :
    (transform_photo_references (fun _ => []) "srcorg" "dstorg"
      { content_elements := [{ _id := "b", referent := some { id := "a", rtype := "image" } }]
        promo_basic := none, promo_lead_art := none, related_basic := [] }).map
        references_images = some ["a"] := by
  decide

/-- C1 amended: for a well-formed story (every occurrence has matching
inline and referent ids — the property the counterexample violates), on a
run the transform can complete (the document carries a direct image
reference, or the fetched galleries carry no images — otherwise the source
raises AttributeError in the scan phase and no rewritten document exists),
and provided the regenerated ids are fresh (no generated id collides with
any old id of the run or with the source org name, no old id equals the
source org name) and injectively generated, the round trip holds: the
transform returns a rewritten document, re-scanning it finds none of the old
image ids, the found id set is exactly the image of the old id set under the
generator, and its size is the original reference count. -/
theorem C1_roundtrip_amended (gc : String → List String)
    (from_org to_org : String) (s : Story)
    (hwf : wfStory s = true)
    (hcomplete : references_images s ≠ [] ∨
       (references_galleries s).flatMap gc = [])
    (hfresh : ∀ k ∈ allPhotoKeys gc s, generate_arc_id k to_org ∉ allPhotoKeys gc s)
    (hfreshf : ∀ k ∈ allPhotoKeys gc s, generate_arc_id k to_org ≠ from_org)
    (hfrom : from_org ∉ allPhotoKeys gc s)
    (hinj : ∀ k1 ∈ allPhotoKeys gc s, ∀ k2 ∈ allPhotoKeys gc s,
       generate_arc_id k1 to_org = generate_arc_id k2 to_org → k1 = k2) :
    ∃ s2, transform_photo_references gc from_org to_org s = some s2 ∧
      (∀ x ∈ references_images s, x ∉ references_images s2) ∧
      (references_images s2).toFinset
        = (references_images s).toFinset.image (fun k => generate_arc_id k to_org) ∧
      (references_images s2).toFinset.card = (references_images s).toFinset.card := by
  have hguard : ¬(references_images s = [] ∧
      (references_galleries s).flatMap gc ≠ []) := by
    rcases hcomplete with h | h
    · exact fun hc => h hc.1
    · exact fun hc => hc.2 h
  have htrans : transform_photo_references gc from_org to_org s
      = some (rewriteAll s (photoMappingPairs gc from_org to_org s)) := by
    unfold transform_photo_references photoMapping
    rw [if_neg hguard]
    rfl
  have hscan : scanImagesRaw (rewriteAll s (photoMappingPairs gc from_org to_org s))
      = (scanImagesRaw s).map (chainMap (photoMappingPairs gc from_org to_org s)) :=
    scanRaw_rewriteAll (photoMappingPairs gc from_org to_org s) s hwf
  have hKsub : ∀ x ∈ scanImagesRaw s, x ∈ allPhotoKeys gc s := by
    intro x hx
    exact List.mem_append_left _
      (List.mem_append_left _ (List.mem_dedup.mpr hx))
  have hpt : ∀ x ∈ scanImagesRaw s,
      chainMap (photoMappingPairs gc from_org to_org s) x
        = generate_arc_id x to_org := by
    intro x hx
    have hxr : x ∈ references_images s := List.mem_dedup.mpr hx
    have hxK : x ∈ allPhotoKeys gc s := hKsub x hx
    apply chainMap_hits
    · exact photoMapping_hasKey gc from_org to_org s x hxr
    · intro p hp hpx
      rcases photoMapping_entry gc from_org to_org s p hp with ⟨_, hv⟩ | ⟨hf, _⟩
      · rw [hv, hpx]
      · exact absurd (hf ▸ hpx ▸ hxK) hfrom
    · intro p hp
      rcases photoMapping_entry gc from_org to_org s p hp with ⟨hk, _⟩ | ⟨hf, _⟩
      · exact fun he => hfresh x hxK (he ▸ hk)
      · exact fun he => hfreshf x hxK (he.symm.trans hf)
  have hmap : scanImagesRaw (rewriteAll s (photoMappingPairs gc from_org to_org s))
      = (scanImagesRaw s).map (fun k => generate_arc_id k to_org) := by
    rw [hscan]
    exact List.map_congr_left hpt
  refine ⟨rewriteAll s (photoMappingPairs gc from_org to_org s), htrans, ?_, ?_, ?_⟩
  · intro x hx hmem
    have hx2 : x ∈ scanImagesRaw (rewriteAll s (photoMappingPairs gc from_org to_org s)) :=
      List.mem_dedup.mp hmem
    rw [hmap] at hx2
    obtain ⟨y, hy, hxy⟩ := List.mem_map.mp hx2
    exact hfresh y (hKsub y hy) (hxy ▸ hKsub x (List.mem_dedup.mp hx))
  · show (scanImagesRaw (rewriteAll s (photoMappingPairs gc from_org to_org s))).dedup.toFinset
        = (scanImagesRaw s).dedup.toFinset.image (fun k => generate_arc_id k to_org)
    rw [toFinset_dedup_list, toFinset_dedup_list, hmap, toFinset_map_list]
  · show (scanImagesRaw (rewriteAll s (photoMappingPairs gc from_org to_org s))).dedup.toFinset.card
        = (scanImagesRaw s).dedup.toFinset.card
    rw [toFinset_dedup_list, toFinset_dedup_list, hmap, toFinset_map_list]
    apply Finset.card_image_of_injOn
    intro a ha b hb hab
    have haK : a ∈ allPhotoKeys gc s := hKsub a (List.mem_toFinset.mp ha)
    have hbK : b ∈ allPhotoKeys gc s := hKsub b (List.mem_toFinset.mp hb)
    exact hinj a haK b hbK hab

/-- C1 witness: the round trip at a concrete well-formed story with one
image reference a (a completing run: the scan finds a direct image). -/
theorem C1_witness :
    wfStory roundtripStory = true ∧
    references_images roundtripStory ≠ [] ∧
    (∃ s2, transform_photo_references (fun _ => []) "srcorg" "dstorg"
        roundtripStory = some s2 ∧
      (∀ x ∈ references_images roundtripStory, x ∉ references_images s2) ∧
      (references_images s2).toFinset
        = (references_images roundtripStory).toFinset.image
            (fun k => generate_arc_id k "dstorg") ∧
      (references_images s2).toFinset.card
        = (references_images roundtripStory).toFinset.card) :=
  ⟨by decide, by decide,
   C1_roundtrip_amended (fun _ => []) "srcorg" "dstorg" roundtripStory
     (by decide) (Or.inl (by decide)) (by decide) (by decide) (by decide) (by decide)⟩

end Arc2Arc
